import Mathlib

/-!
Verification of the masa-finance/mcp-demo adapter.

The Go sources embedded here are:
  * `internal/masax` — the Masa X API client (`SearchRequest`, `SearchResponse`,
    `ErrorResponse`, `NewClient`, `Client.Search`);
  * `internal/mcp` — the MCP protocol adapter (`NewServer`, `handleMasaXSearch`,
    `handleReadSearchResult`);
  * `cmd/masax-mcp` — the process entry point (`main`).

Modelling conventions:
  * JSON documents are represented by the abstract syntax tree `JValue`;
    a JSON text is identified with its parse tree.  An HTTP response body is a
    `Body`: either a raw string together with the `JValue` it parses to, or a
    raw string that is not valid JSON.
  * Go's `encoding/json` marshalling/unmarshalling of the concrete structs is
    embedded as explicit encode/decode functions on `JValue`, following Go's
    struct-tag semantics (field names from tags, `omitempty`, missing fields
    decode to zero values, wrong-typed fields fail the decode).
  * `time.Time` values are modelled by their RFC3339 rendering as opaque
    strings; the zero time is modelled by the empty string.
  * JSON numbers are modelled as integers (every number the embedded structs
    produce is an integer; a non-integral number in an integer field fails
    Go's decode just as a non-number does, which the `none` branch covers).
  * The network is external to the program: `Client.Search` is embedded as a
    function of the transport outcome (`TransportOutcome`), and the MCP
    handlers are parametrised by an abstract search function standing for
    `Client.Search`; each handler additionally returns the list of
    `(query, maxResults)` calls it issued to that function, so that "no
    outbound call is made" is expressible.
-/

/-- JSON values (abstract syntax of JSON texts). -/
inductive JValue where
  | jnull : JValue
  | jbool : Bool → JValue
  | jnum : Int → JValue
  | jstr : String → JValue
  | jarr : List JValue → JValue
  | jobj : List (String × JValue) → JValue
deriving Repr

/-- Look up a field of a JSON object field list (first occurrence). -/
def jlookup (fields : List (String × JValue)) (key : String) : Option JValue :=
  match fields with
  | [] => none
  | (k, v) :: rest => if k = key then some v else jlookup rest key

/-- Whether a JSON value is an object carrying the given field. -/
def JValue.hasField (j : JValue) (key : String) : Bool :=
  match j with
  | .jobj fields => (jlookup fields key).isSome
  | _ => false

/-- An HTTP response body: the raw text, with its parse tree when it is
valid JSON. -/
inductive Body where
  | valid : String → JValue → Body
  | invalid : String → Body
deriving Repr

/-- The raw text of a body (Go: `string(respBodyBytes)`). -/
def Body.raw : Body → String
  | .valid r _ => r
  | .invalid r => r

/-! ## Data model (Go structs of `internal/masax`) -/

/-- Go `masax.SearchRequest`: `{Query string "query"; MaxResults int
"max_results,omitempty"}`. -/
structure SearchRequest where
  query : String
  maxResults : Int
deriving Repr, DecidableEq

/-- Go `masax.PublicMetrics`. -/
structure PublicMetrics where
  retweetCount : Int
  replyCount : Int
  likeCount : Int
  quoteCount : Int
deriving Repr, DecidableEq

/-- Go `masax.SearchResult`; `CreatedAt` is the RFC3339 rendering of the
`time.Time` field, as an opaque string. -/
structure SearchResult where
  id : String
  text : String
  authorID : String
  createdAt : String
  publicMetrics : PublicMetrics
  url : String
deriving Repr, DecidableEq

/-- Go `masax.SearchMetadata`: `{TotalResults int "total_results"; NextToken
string "next_token,omitempty"}`. -/
structure SearchMetadata where
  totalResults : Int
  nextToken : String
deriving Repr, DecidableEq

/-- Go `masax.SearchResponse`: `{Items []SearchResult "items"; Metadata
SearchMetadata "metadata"}`. -/
structure SearchResponse where
  items : List SearchResult
  metadata : SearchMetadata
deriving Repr, DecidableEq

/-- Go `masax.ErrorDetail`: `{Code string "code"; Message string "message"}`. -/
structure ErrorDetail where
  code : String
  message : String
deriving Repr, DecidableEq

/-- Go `masax.ErrorResponse`: `{Error ErrorDetail "error"}`. -/
structure ErrorResponse where
  error : ErrorDetail
deriving Repr, DecidableEq

/-! ## `encoding/json` embedding for the structs above -/

/-- Decode a JSON value into a Go `string` field: strings decode to
themselves, `null` leaves the zero value, anything else fails. -/
def decodeStringField : Option JValue → Option String
  | none => some ""
  | some .jnull => some ""
  | some (.jstr s) => some s
  | some _ => none

/-- Decode a JSON value into a Go `int` field: integers decode to
themselves, `null` leaves the zero value, anything else fails. -/
def decodeIntField : Option JValue → Option Int
  | none => some 0
  | some .jnull => some 0
  | some (.jnum n) => some n
  | some _ => none

/-- `json.Unmarshal` into `masax.ErrorDetail`. -/
def decodeErrorDetail (j : JValue) : Option ErrorDetail :=
  match j with
  | .jnull => some ⟨"", ""⟩
  | .jobj fields => do
      let code ← decodeStringField (jlookup fields "code")
      let message ← decodeStringField (jlookup fields "message")
      pure ⟨code, message⟩
  | _ => none

/-- `json.Unmarshal` into `masax.ErrorResponse`: the body must be a JSON
object (or `null`); an absent `error` field leaves the zero value. -/
def decodeErrorResponse (j : JValue) : Option ErrorResponse :=
  match j with
  | .jnull => some ⟨⟨"", ""⟩⟩
  | .jobj fields =>
      match jlookup fields "error" with
      | none => some ⟨⟨"", ""⟩⟩
      | some inner => (decodeErrorDetail inner).map (⟨·⟩)
  | _ => none

/-- `json.Unmarshal` into `masax.ErrorResponse` from a raw body: fails when
the body is not valid JSON. -/
def decodeErrorResponseBody (b : Body) : Option ErrorResponse :=
  match b with
  | .valid _ j => decodeErrorResponse j
  | .invalid _ => none

/-- `json.Unmarshal` into `masax.PublicMetrics`. -/
def decodePublicMetrics (j : JValue) : Option PublicMetrics :=
  match j with
  | .jnull => some ⟨0, 0, 0, 0⟩
  | .jobj fields => do
      let rt ← decodeIntField (jlookup fields "retweet_count")
      let rp ← decodeIntField (jlookup fields "reply_count")
      let lk ← decodeIntField (jlookup fields "like_count")
      let qt ← decodeIntField (jlookup fields "quote_count")
      pure ⟨rt, rp, lk, qt⟩
  | _ => none

/-- `json.Unmarshal` into `masax.SearchResult`. -/
def decodeSearchResult (j : JValue) : Option SearchResult :=
  match j with
  | .jobj fields => do
      let id ← decodeStringField (jlookup fields "id")
      let text ← decodeStringField (jlookup fields "text")
      let authorID ← decodeStringField (jlookup fields "author_id")
      let createdAt ← decodeStringField (jlookup fields "created_at")
      let pm ←
        match jlookup fields "public_metrics" with
        | none => some ⟨0, 0, 0, 0⟩
        | some inner => decodePublicMetrics inner
      let url ← decodeStringField (jlookup fields "url")
      pure ⟨id, text, authorID, createdAt, pm, url⟩
  | _ => none

/-- `json.Unmarshal` into `masax.SearchMetadata`. -/
def decodeSearchMetadata (j : JValue) : Option SearchMetadata :=
  match j with
  | .jnull => some ⟨0, ""⟩
  | .jobj fields => do
      let tr ← decodeIntField (jlookup fields "total_results")
      let nt ← decodeStringField (jlookup fields "next_token")
      pure ⟨tr, nt⟩
  | _ => none

/-- Element-wise `json.Unmarshal` of a JSON array into `[]SearchResult`:
fails as soon as one element fails, preserving order. -/
def decodeItems : List JValue → Option (List SearchResult)
  | [] => some []
  | x :: xs => do
      let r ← decodeSearchResult x
      let rest ← decodeItems xs
      pure (r :: rest)

/-- `json.Unmarshal` into `masax.SearchResponse`: `items` decodes
element-wise (`null`/absent gives the empty sequence), `metadata`
decodes as a nested struct. -/
def decodeSearchResponse (j : JValue) : Option SearchResponse :=
  match j with
  | .jobj fields => do
      let items ←
        match jlookup fields "items" with
        | none => some []
        | some .jnull => some []
        | some (.jarr xs) => decodeItems xs
        | some _ => none
      let md ←
        match jlookup fields "metadata" with
        | none => some ⟨0, ""⟩
        | some inner => decodeSearchMetadata inner
      pure ⟨items, md⟩
  | _ => none

/-- `json.Marshal` of `masax.SearchRequest`: `max_results` carries
`omitempty`, so the field is emitted exactly when the value is not the
zero value `0` (source lines 17–21 of the client file). -/
def encodeSearchRequest (r : SearchRequest) : JValue :=
  .jobj (("query", .jstr r.query) ::
    (if r.maxResults = 0 then [] else [("max_results", .jnum r.maxResults)]))

/-- `json.Marshal` of `masax.PublicMetrics`. -/
def encodePublicMetrics (m : PublicMetrics) : JValue :=
  .jobj [("retweet_count", .jnum m.retweetCount),
         ("reply_count", .jnum m.replyCount),
         ("like_count", .jnum m.likeCount),
         ("quote_count", .jnum m.quoteCount)]

/-- `json.Marshal` of `masax.SearchResult`. -/
def encodeSearchResult (r : SearchResult) : JValue :=
  .jobj [("id", .jstr r.id),
         ("text", .jstr r.text),
         ("author_id", .jstr r.authorID),
         ("created_at", .jstr r.createdAt),
         ("public_metrics", encodePublicMetrics r.publicMetrics),
         ("url", .jstr r.url)]

/-- `json.Marshal` of `masax.SearchMetadata`: `next_token` carries
`omitempty`, so it is emitted exactly when non-empty. -/
def encodeSearchMetadata (m : SearchMetadata) : JValue :=
  .jobj (("total_results", .jnum m.totalResults) ::
    (if m.nextToken = "" then [] else [("next_token", .jstr m.nextToken)]))

/-- `json.Marshal` of `masax.SearchResponse`. -/
def encodeSearchResponse (r : SearchResponse) : JValue :=
  .jobj [("items", .jarr (r.items.map encodeSearchResult)),
         ("metadata", encodeSearchMetadata r.metadata)]

/-! ## `json.MarshalIndent(v, "", "  ")` as a rendering of `JValue` -/

/-- Lowercase hex digit, as used by `encoding/json` escape sequences. -/
def hexDigit (n : Nat) : Char :=
  if n < 10 then Char.ofNat (48 + n) else Char.ofNat (87 + n)

/-- Escape one character the way Go's `encoding/json` string encoder does
(HTML escaping on, as in the default `json.Marshal`). -/
def escapeChar (c : Char) : String :=
  if c = '"' then "\\\""
  else if c = '\\' then "\\\\"
  else if c = '\n' then "\\n"
  else if c = '\r' then "\\r"
  else if c = '\t' then "\\t"
  else if c.toNat < 32 then
    "\\u00" ++ String.mk [hexDigit (c.toNat / 16), hexDigit (c.toNat % 16)]
  else if c = '<' then "\\u003c"
  else if c = '>' then "\\u003e"
  else if c = '&' then "\\u0026"
  else if c.toNat = 8232 then "\\u2028"
  else if c.toNat = 8233 then "\\u2029"
  else String.singleton c

/-- A JSON string literal as emitted by `encoding/json`. -/
def renderJSONString (s : String) : String :=
  "\"" ++ String.join (s.toList.map escapeChar) ++ "\""

/-- Indentation at nesting depth `d` for `MarshalIndent(v, "", "  ")`. -/
def jsonIndent (d : Nat) : String :=
  String.join (List.replicate d "  ")

mutual

/-- Render a `JValue` at nesting depth `d` the way
`json.MarshalIndent(v, "", "  ")` lays it out. -/
def renderValue : Nat → JValue → String
  | _, .jnull => "null"
  | _, .jbool b => if b then "true" else "false"
  | _, .jnum n => toString n
  | _, .jstr s => renderJSONString s
  | _, .jarr [] => "[]"
  | d, .jarr (x :: xs) =>
      "[\n" ++ renderElements (d + 1) (x :: xs) ++ "\n" ++ jsonIndent d ++ "]"
  | _, .jobj [] => "\x7b\x7d"
  | d, .jobj (f :: fs) =>
      "\x7b\n" ++ renderFields (d + 1) (f :: fs) ++ "\n" ++ jsonIndent d ++ "\x7d"

/-- Render array elements, one per line, comma separated. -/
def renderElements : Nat → List JValue → String
  | _, [] => ""
  | d, [x] => jsonIndent d ++ renderValue d x
  | d, x :: y :: xs =>
      jsonIndent d ++ renderValue d x ++ ",\n" ++ renderElements d (y :: xs)

/-- Render object fields, one per line, comma separated. -/
def renderFields : Nat → List (String × JValue) → String
  | _, [] => ""
  | d, [(k, v)] => jsonIndent d ++ renderJSONString k ++ ": " ++ renderValue d v
  | d, (k, v) :: f :: fs =>
      jsonIndent d ++ renderJSONString k ++ ": " ++ renderValue d v ++ ",\n" ++
        renderFields d (f :: fs)

end

/-- `json.MarshalIndent(v, "", "  ")` on a JSON document. -/
def marshalIndent (j : JValue) : String := renderValue 0 j

/-! ## API client (`internal/masax`, full implementation file) -/

/-- Go constant `defaultBaseURL`. -/
def defaultBaseURL : String := "https://data.dev.masalabs.ai/api/v1"

/-- Go constant `searchPath`. -/
def searchPath : String := "/search/live/twitter"

/-- Go `masax.Client`: configuration fixed at construction.  The
`http.Client` is represented by its timeout (15 s by default). -/
structure Client where
  apiBaseURL : String
  apiKey : String
  httpTimeoutSeconds : Nat
deriving Repr, DecidableEq

/-- Go `masax.ClientOption`: a functional option mutating the client under
construction. -/
def ClientOption : Type := Client → Client

/-- Go `masax.WithBaseURL`: override the base URL when non-empty. -/
def WithBaseURL (baseURL : String) : ClientOption :=
  fun c => if baseURL = "" then c else { c with apiBaseURL := baseURL }

/-- Go `masax.NewClient`: reject an empty API key, otherwise build the
default client and apply the options in order. -/
def NewClient (apiKey : String) (options : List ClientOption) :
    Except String Client :=
  if apiKey = "" then .error "masa X API key is required"
  else .ok (options.foldl (fun c opt => opt c) ⟨defaultBaseURL, apiKey, 15⟩)

/-- The outbound HTTP request `Client.Search` constructs (source lines
119–144): URL joined from the base URL and the fixed search path, JSON body
`encodeSearchRequest`, and the three headers. -/
structure SearchHTTPRequest where
  url : String
  headers : List (String × String)
  body : JValue
deriving Repr

/-- `Client.Search` request construction: serialize `SearchRequest
{Query: query, MaxResults: maxResults}` and POST it with JSON and bearer
headers. -/
def clientSearchRequest (c : Client) (query : String) (maxResults : Int) :
    SearchHTTPRequest :=
  { url := c.apiBaseURL ++ searchPath
    headers := [("Content-Type", "application/json"),
                ("Accept", "application/json"),
                ("Authorization", "Bearer " ++ c.apiKey)]
    body := encodeSearchRequest ⟨query, maxResults⟩ }

/-- Outcome of the HTTP round-trip performed by `c.httpClient.Do`, which is
external to the program: either a transport failure with its cause, or a
status code together with the response body. -/
inductive TransportOutcome where
  | failure : String → TransportOutcome
  | response : Nat → Body → TransportOutcome

/-- `Client.Search`, response-handling half (source lines 147–177), as a
function of the transport outcome.  The error strings are the
`fmt.Errorf` format strings of the source; the cause wrapped by the
unmarshal-failure branch is the `encoding/json` error text, which the model
abstracts away (the branch still fails, with the source's message text). -/
def clientSearch (_query : String) (_maxResults : Int) (t : TransportOutcome) :
    Except String SearchResponse :=
  match t with
  | .failure cause => .error ("failed to execute HTTP request: " ++ cause)
  | .response status body =>
    if status < 200 ∨ 300 ≤ status then
      match decodeErrorResponseBody body with
      | some apiError =>
          if apiError.error.message ≠ "" then
            .error ("masa X API error (HTTP " ++ toString status ++ " - " ++
              apiError.error.code ++ "): " ++ apiError.error.message)
          else
            .error ("masa X API request failed with HTTP status " ++
              toString status ++ ": " ++ body.raw)
      | none =>
          .error ("masa X API request failed with HTTP status " ++
            toString status ++ ": " ++ body.raw)
    else
      match body with
      | .valid _ j =>
          match decodeSearchResponse j with
          | some resp => .ok resp
          | none => .error "failed to unmarshal successful response body"
      | .invalid _ => .error "failed to unmarshal successful response body"

/-! ## MCP protocol adapter (`internal/mcp/server.go`) -/

/-- Go constant `serverName`. -/
def serverName : String := "MasaX_MCP_Server"

/-- Go constant `serverVersion`. -/
def serverVersion : String := "0.1.0"

/-- Go constant `searchToolName`. -/
def searchToolName : String := "masa_x_search"

/-- Go constant `searchResultResourcePrefix` (the fixed URI stem of the
search-result resource). -/
def searchResultResourceBase : String := "masax://search/results/"

/-- Go constant `searchIDParam`. -/
def searchIDParam : String := "search_id"

/-- Go constant `jsonMimeType`. -/
def jsonMimeType : String := "application/json"

/-- Go `mcp.TextResourceContents` (the fields the adapter sets). -/
structure TextResourceContents where
  uri : String
  mimeType : String
  text : String
deriving Repr, DecidableEq

/-- One content block of an MCP tool result: text, or an embedded
resource. -/
inductive ToolContent where
  | text : String → ToolContent
  | embeddedResource : TextResourceContents → ToolContent
deriving Repr, DecidableEq

/-- Go `mcp.CallToolResult`: content blocks plus the tool-error flag. -/
structure CallToolResult where
  content : List ToolContent
  isError : Bool
deriving Repr, DecidableEq

/-- Go `mcp.NewToolResultError`: a single text block, error flag set. -/
def NewToolResultError (msg : String) : CallToolResult :=
  ⟨[.text msg], true⟩

/-- Go `mcp.NewToolResultResource`: a text block followed by the embedded
resource, error flag clear. -/
def NewToolResultResource (text : String) (resource : TextResourceContents) :
    CallToolResult :=
  ⟨[.text text, .embeddedResource resource], false⟩

/-- Go `mcp.CallToolRequest`, reduced to the dynamic argument map
`request.Params.Arguments` the handler reads. -/
structure CallToolRequest where
  arguments : List (String × JValue)

/-- Go `mcp.ReadResourceRequest`: the requested URI and the argument map. -/
structure ReadResourceRequest where
  uri : String
  arguments : List (String × JValue)

/-- Go type assertion `Arguments[key].(string)`: succeeds exactly when the
key is present and holds a string. -/
def getStringArg (args : List (String × JValue)) (key : String) :
    Option String :=
  match jlookup args key with
  | some (.jstr s) => some s
  | _ => none

/-- `handleMasaXSearch`'s extraction of `max_results` (source lines 90–96):
default 0; when the argument exists and is a JSON number, truncate it to
an integer; any other value is ignored. -/
def extractMaxResults (args : List (String × JValue)) : Int :=
  match jlookup args "max_results" with
  | some (.jnum n) => n
  | _ => 0

/-- The abstract search function the handlers delegate to
(`s.masaClient.Search`, with the context and HTTP exchange abstracted):
from the query and `maxResults` to the client's result. -/
def SearchFun : Type := String → Int → Except String SearchResponse

/-- Result of one `handleMasaXSearch` invocation: the `*mcp.CallToolResult`,
the Go `error` return value, and the list of `(query, maxResults)` calls
issued to `masaClient.Search`. -/
structure ToolHandlerOutcome where
  result : CallToolResult
  goError : Option String
  searchCalls : List (String × Int)
deriving Repr, DecidableEq

/-- Go `handleMasaXSearch` (source lines 84–134).  The
`json.MarshalIndent` failure branch of the source (lines 111–115) is dead
in the model because marshalling the response struct is total, matching
Go, where marshalling these struct types cannot fail; every branch
returns a `nil` Go error. -/
def handleMasaXSearch (search : SearchFun) (request : CallToolRequest) :
    ToolHandlerOutcome :=
  match getStringArg request.arguments "query" with
  | none =>
      ⟨NewToolResultError "Missing or invalid 'query' argument", none, []⟩
  | some query =>
      if query = "" then
        ⟨NewToolResultError "Missing or invalid 'query' argument", none, []⟩
      else
        let maxResults := extractMaxResults request.arguments
        match search query maxResults with
        | .error e =>
            ⟨NewToolResultError ("Masa X API error: " ++ e), none,
              [(query, maxResults)]⟩
        | .ok searchResponse =>
            let jsonData := marshalIndent (encodeSearchResponse searchResponse)
            let searchID := query
            let resultURI := searchResultResourceBase ++ searchID
            ⟨NewToolResultResource
                ("Masa X search results for query: '" ++ query ++ "'")
                ⟨resultURI, jsonMimeType, jsonData⟩,
              none, [(query, maxResults)]⟩

/-- Scanner state for Go's `fmt` formatting of a format string with no
operands: outside any verb, inside the flag/width part of a verb, or
inside the precision part of a verb. -/
inductive FmtMode where
  | normal : FmtMode
  | spec : FmtMode
  | prec : FmtMode

/-- Go `fmt.Sprintf`/`fmt.Errorf` applied to a format string with NO
operands: literal text is copied, `%%` prints `%`, a `%` at the end of
input prints `%!(NOVERB)`, and any other verb, having no operand, prints
`%!v(MISSING)` for its verb character `v` (flags, width and precision are
consumed; the `*` width/precision form, which Go reports separately, is
not distinguished).  `handleReadSearchResult` hits this because it passes
an already-formatted message to `fmt.Errorf` as the format string. -/
def fmtScanAux : FmtMode → List Char → List Char
  | .normal, [] => []
  | .normal, c :: cs =>
      if c = '%' then fmtScanAux .spec cs else c :: fmtScanAux .normal cs
  | .spec, [] => '%' :: '!' :: "(NOVERB)".data
  | .spec, c :: cs =>
      if c = '%' then '%' :: fmtScanAux .normal cs
      else if c = '#' || c = '0' || c = '+' || c = '-' || c = ' ' || c.isDigit
        then fmtScanAux .spec cs
      else if c = '.' then fmtScanAux .prec cs
      else '%' :: '!' :: c :: ("(MISSING)".data ++ fmtScanAux .normal cs)
  | .prec, [] => '%' :: '!' :: "(NOVERB)".data
  | .prec, c :: cs =>
      if c.isDigit then fmtScanAux .prec cs
      else if c = '%' then '%' :: fmtScanAux .normal cs
      else '%' :: '!' :: c :: ("(MISSING)".data ++ fmtScanAux .normal cs)

/-- Go `fmt.Errorf(s)` with no operands: the message actually produced. -/
def sprintfNoArgs (s : String) : String :=
  String.mk (fmtScanAux .normal s.data)

/-- Result of one `handleReadSearchResult` invocation: the
`([]mcp.ResourceContents, error)` pair (as an `Except`), and the list of
`(query, maxResults)` calls issued to `masaClient.Search`. -/
structure ReadHandlerOutcome where
  result : Except String (List TextResourceContents)
  searchCalls : List (String × Int)
deriving Repr

/-- Go `handleReadSearchResult` (source lines 139–175).  As for the tool
handler, the marshal-failure branch (lines 160–165) is dead because
marshalling the response struct is total.  On a client failure the source
first builds `errMsg` with `fmt.Sprintf` (operands substituted verbatim)
and then returns `fmt.Errorf(errMsg)`, re-interpreting the built message
as a format string with no operands — hence the `sprintfNoArgs` pass. -/
def handleReadSearchResult (search : SearchFun)
    (request : ReadResourceRequest) : ReadHandlerOutcome :=
  match getStringArg request.arguments searchIDParam with
  | none =>
      ⟨.error ("missing '" ++ searchIDParam ++
        "' argument in resource request for URI " ++ request.uri), []⟩
  | some searchID =>
      if searchID = "" then
        ⟨.error ("missing '" ++ searchIDParam ++
          "' argument in resource request for URI " ++ request.uri), []⟩
      else
        match search searchID 0 with
        | .error e =>
            ⟨.error (sprintfNoArgs ("Failed to retrieve results for id '" ++
              searchID ++ "': " ++ e)), [(searchID, 0)]⟩
        | .ok searchResponse =>
            ⟨.ok [⟨request.uri, jsonMimeType,
              marshalIndent (encodeSearchResponse searchResponse)⟩],
              [(searchID, 0)]⟩

/-- Go `mcp.MCPServer` wrapper: holds the masax client (the embedded
`server.MCPServer` carries no state the claims touch). -/
structure MCPServer where
  masaClient : Client
deriving Repr, DecidableEq

/-- Go `mcp.NewServer`: a `nil` client (modelled as `none`) is rejected;
otherwise the server is built and registration, which cannot fail
(`registerComponents` always returns `nil`), succeeds. -/
def NewServer (client : Option Client) : Except String MCPServer :=
  match client with
  | none => .error "masax client cannot be nil"
  | some c => .ok ⟨c⟩

/-! ## Process entry point (`cmd/masax-mcp`, full implementation file) -/

/-- Outcome of `main` up to entering the stdio serve loop: `log.Fatalf`
(process-fatal, non-zero exit) with its message, or serving with the
constructed server. -/
inductive MainOutcome where
  | fatal : String → MainOutcome
  | serve : MCPServer → MainOutcome
deriving Repr, DecidableEq

/-- Go `main`, parametrised by the two constructors it calls (so that the
wiring "every construction failure is `log.Fatalf`" is visible): `env` is
the process environment after the non-fatal `godotenv.Load` step;
`os.Getenv` yields the empty string for an unset variable. -/
def mainEntryWith (newClientFn : String → Except String Client)
    (newServerFn : Option Client → Except String MCPServer)
    (env : String → Option String) : MainOutcome :=
  let apiKey := (env "MASA_API_KEY").getD ""
  if apiKey = "" then
    .fatal "Error: MASA_API_KEY environment variable not set."
  else
    match newClientFn apiKey with
    | .error e => .fatal ("Failed to create Masa X client: " ++ e)
    | .ok masaClient =>
        match newServerFn (some masaClient) with
        | .error e => .fatal ("Failed to create MCP server: " ++ e)
        | .ok mcpServer => .serve mcpServer

/-- Go `main` with the actual constructors `masax.NewClient` (no options)
and `mcp.NewServer`. -/
def mainEntry (env : String → Option String) : MainOutcome :=
  mainEntryWith (fun k => NewClient k []) NewServer env

/-! ## Round-trip lemmas for the JSON embedding -/

/-- Decoding inverts encoding on `PublicMetrics`. -/
theorem decodePublicMetrics_encode (m : PublicMetrics) :
    decodePublicMetrics (encodePublicMetrics m) = some m := by
  simp [decodePublicMetrics, encodePublicMetrics, jlookup, decodeIntField]

/-- Decoding inverts encoding on `SearchResult`. -/
theorem decodeSearchResult_encode (r : SearchResult) :
    decodeSearchResult (encodeSearchResult r) = some r := by
  simp [decodeSearchResult, encodeSearchResult, jlookup, decodeStringField,
    decodePublicMetrics_encode]

/-- Decoding inverts encoding on `SearchMetadata` (in particular across the
`omitempty` treatment of `next_token`). -/
theorem decodeSearchMetadata_encode (m : SearchMetadata) :
    decodeSearchMetadata (encodeSearchMetadata m) = some m := by
  rcases m with ⟨tr, nt⟩
  by_cases h : nt = "" <;>
    simp [decodeSearchMetadata, encodeSearchMetadata, jlookup, decodeIntField,
      decodeStringField, h]

/-- Element-wise decoding inverts element-wise encoding on item lists,
preserving both the elements and their order. -/
theorem decodeItems_encode (xs : List SearchResult) :
    decodeItems (xs.map encodeSearchResult) = some xs := by
  induction xs with
  | nil => rfl
  | cons x xs ih => simp [decodeItems, ih, decodeSearchResult_encode]

/-- Decoding inverts encoding on `SearchResponse`: serialising a response
and parsing the result back is the identity. -/
theorem decodeSearchResponse_encode (r : SearchResponse) :
    decodeSearchResponse (encodeSearchResponse r) = some r := by
  simp [decodeSearchResponse, encodeSearchResponse, jlookup,
    decodeItems_encode, decodeSearchMetadata_encode]

/-! ## Claim theorems -/

/-- C1: for every tool invocation of `masa_x_search` whose `query` argument
is absent, not a string (`getStringArg = none` covers both), or the empty
string, and for every argument map (hence every value of `max_results`)
and every client behaviour, the handler returns the tool-level error
result with message "Missing or invalid 'query' argument" (and a `nil` Go
error), and issues no call to the client's `Search`. -/
theorem masaXSearch_invalid_query (search : SearchFun)
    (args : List (String × JValue))
    (h : getStringArg args "query" = none ∨ getStringArg args "query" = some "") :
    handleMasaXSearch search ⟨args⟩ =
      ⟨NewToolResultError "Missing or invalid 'query' argument", none, []⟩ := by
  rcases h with h | h <;> simp [handleMasaXSearch, h]

/-- Witness for C1: the spec's own scenario, arguments
`{"max_results": 5}` with no query. -/
theorem masaXSearch_invalid_query_witness :
    handleMasaXSearch (fun _ _ => .ok ⟨[], ⟨0, ""⟩⟩)
        ⟨[("max_results", .jnum 5)]⟩ =
      ⟨NewToolResultError "Missing or invalid 'query' argument", none, []⟩ :=
  masaXSearch_invalid_query _ _ (Or.inl rfl)

/-- C2: for every HTTP response with status outside [200,300), `Search`
fails and returns no `SearchResponse`: when the body parses as an
`ErrorResponse` with non-empty message the error is the format string
carrying the HTTP status, the error code and the error message; when the
message is empty, or the body does not parse, the error carries the HTTP
status and the raw body text. -/
theorem clientSearch_non2xx (q : String) (n : Int) (st : Nat) (b : Body)
    (h : st < 200 ∨ 300 ≤ st) :
    (∀ e, decodeErrorResponseBody b = some e → e.error.message ≠ "" →
        clientSearch q n (.response st b) =
          .error ("masa X API error (HTTP " ++ toString st ++ " - " ++
            e.error.code ++ "): " ++ e.error.message)) ∧
    (∀ e, decodeErrorResponseBody b = some e → e.error.message = "" →
        clientSearch q n (.response st b) =
          .error ("masa X API request failed with HTTP status " ++
            toString st ++ ": " ++ b.raw)) ∧
    (decodeErrorResponseBody b = none →
        clientSearch q n (.response st b) =
          .error ("masa X API request failed with HTTP status " ++
            toString st ++ ": " ++ b.raw)) := by
  refine ⟨fun e he hm => ?_, fun e he hm => ?_, fun he => ?_⟩
  · simp [clientSearch, h, he, hm]
  · simp [clientSearch, h, he, hm]
  · simp [clientSearch, h, he]

/-- Witness for C2: the spec's 429 scenario, body
`{"error":{"code":"rate_limited","message":"slow down"}}`. -/
theorem clientSearch_non2xx_witness :
    clientSearch "hello" 5 (.response 429 (.valid
        "\x7b\"error\":\x7b\"code\":\"rate_limited\",\"message\":\"slow down\"\x7d\x7d"
        (.jobj [("error", .jobj [("code", .jstr "rate_limited"),
                                 ("message", .jstr "slow down")])]))) =
      .error "masa X API error (HTTP 429 - rate_limited): slow down" :=
  (clientSearch_non2xx "hello" 5 429 _ (by decide)).1
    ⟨⟨"rate_limited", "slow down"⟩⟩ rfl (by decide)

/-- C3: for every HTTP response with status in [200,300), `Search` parses
the body as a `SearchResponse` and returns the parsed value; when the body
does not decode (as a `SearchResponse`, or as JSON at all) it fails with
the unmarshal error and returns no response. -/
theorem clientSearch_2xx (q : String) (n : Int) (st : Nat) (b : Body)
    (h1 : 200 ≤ st) (h2 : st < 300) :
    (∀ raw j r, b = .valid raw j → decodeSearchResponse j = some r →
        clientSearch q n (.response st b) = .ok r) ∧
    (∀ raw j, b = .valid raw j → decodeSearchResponse j = none →
        clientSearch q n (.response st b) =
          .error "failed to unmarshal successful response body") ∧
    (∀ raw, b = .invalid raw →
        clientSearch q n (.response st b) =
          .error "failed to unmarshal successful response body") := by
  have hn : ¬ (st < 200 ∨ 300 ≤ st) := by omega
  refine ⟨fun raw j r hb hd => ?_, fun raw j hb hd => ?_, fun raw hb => ?_⟩
  · subst hb; simp [clientSearch, hn, hd]
  · subst hb; simp [clientSearch, hn, hd]
  · subst hb; simp [clientSearch, hn]

/-- Witness for C3: the spec's scenario — `Search(ctx, "hello", 5)` against
status 200 with body
`{"items":[{"id":"r1","text":"hi"}],"metadata":{"total_results":1}}`
returns the response with a single item of id "r1" (absent struct fields
take their zero values). -/
theorem clientSearch_2xx_witness :
    clientSearch "hello" 5 (.response 200 (.valid
        "\x7b\"items\":[\x7b\"id\":\"r1\",\"text\":\"hi\"\x7d],\"metadata\":\x7b\"total_results\":1\x7d\x7d"
        (.jobj [("items", .jarr [.jobj [("id", .jstr "r1"),
                                        ("text", .jstr "hi")]]),
                ("metadata", .jobj [("total_results", .jnum 1)])]))) =
      .ok ⟨[⟨"r1", "hi", "", "", ⟨0, 0, 0, 0⟩, ""⟩], ⟨1, ""⟩⟩ :=
  (clientSearch_2xx "hello" 5 200 _ (by decide) (by decide)).1
    _ _ _ rfl rfl

/-- C4: for every valid (non-empty) query, every non-negative extracted
`max_results` and every client behaviour, when the client call succeeds
with response `r`, serialisation round-trips: decoding the serialised
response is the identity (`decodeSearchResponse_encode`), and the tool
result embeds the rendering of a JSON document that decodes back to
exactly `r` — in particular with the `items` sequence equal, in the same
order, to the client's. -/
theorem masaXSearch_roundtrip (search : SearchFun)
    (args : List (String × JValue)) (q : String) (r : SearchResponse)
    (hq : getStringArg args "query" = some q) (hne : q ≠ "")
    (_hnn : 0 ≤ extractMaxResults args)
    (hs : search q (extractMaxResults args) = .ok r) :
    decodeSearchResponse (encodeSearchResponse r) = some r ∧
    ∃ doc : JValue,
      (handleMasaXSearch search ⟨args⟩).result.content =
        [.text ("Masa X search results for query: '" ++ q ++ "'"),
         .embeddedResource ⟨searchResultResourceBase ++ q, jsonMimeType,
           marshalIndent doc⟩] ∧
      decodeSearchResponse doc = some r := by
  refine ⟨decodeSearchResponse_encode r, encodeSearchResponse r, ?_,
    decodeSearchResponse_encode r⟩
  simp [handleMasaXSearch, hq, hne, hs, NewToolResultResource]

/-- Witness for C4 at query "hello", `max_results` 5 and a one-item
client response. -/
theorem masaXSearch_roundtrip_witness :
    decodeSearchResponse
        (encodeSearchResponse ⟨[⟨"r1", "hi", "a", "t", ⟨1, 2, 3, 4⟩, "u"⟩], ⟨1, ""⟩⟩) =
      some ⟨[⟨"r1", "hi", "a", "t", ⟨1, 2, 3, 4⟩, "u"⟩], ⟨1, ""⟩⟩ ∧
    ∃ doc : JValue,
      (handleMasaXSearch
          (fun _ _ => .ok ⟨[⟨"r1", "hi", "a", "t", ⟨1, 2, 3, 4⟩, "u"⟩], ⟨1, ""⟩⟩)
          ⟨[("query", .jstr "hello"), ("max_results", .jnum 5)]⟩).result.content =
        [.text ("Masa X search results for query: '" ++ "hello" ++ "'"),
         .embeddedResource ⟨searchResultResourceBase ++ "hello", jsonMimeType,
           marshalIndent doc⟩] ∧
      decodeSearchResponse doc =
        some ⟨[⟨"r1", "hi", "a", "t", ⟨1, 2, 3, 4⟩, "u"⟩], ⟨1, ""⟩⟩ :=
  masaXSearch_roundtrip _ _ "hello" _ rfl (by decide) (by decide) rfl

/-- C5: for every valid (non-empty) query and every client behaviour, when
the client call succeeds with response `r`, the handler returns exactly
the tool result embedding one resource content whose URI is the fixed
stem "masax://search/results/" concatenated with the raw query, whose
MIME type is "application/json" and whose text is the pretty-printed JSON
of `r`, together with the summary string naming the query (plus a `nil`
Go error and exactly the one delegated `Search` call). -/
theorem masaXSearch_success (search : SearchFun)
    (args : List (String × JValue)) (q : String) (r : SearchResponse)
    (hq : getStringArg args "query" = some q) (hne : q ≠ "")
    (hs : search q (extractMaxResults args) = .ok r) :
    handleMasaXSearch search ⟨args⟩ =
      ⟨⟨[.text ("Masa X search results for query: '" ++ q ++ "'"),
         .embeddedResource ⟨searchResultResourceBase ++ q, jsonMimeType,
           marshalIndent (encodeSearchResponse r)⟩], false⟩,
       none, [(q, extractMaxResults args)]⟩ := by
  simp [handleMasaXSearch, hq, hne, hs, NewToolResultResource]

/-- Witness for C5 at query "hello" with an empty-items client response. -/
theorem masaXSearch_success_witness :
    handleMasaXSearch (fun _ _ => .ok ⟨[], ⟨0, ""⟩⟩)
        ⟨[("query", .jstr "hello")]⟩ =
      ⟨⟨[.text ("Masa X search results for query: '" ++ "hello" ++ "'"),
         .embeddedResource ⟨searchResultResourceBase ++ "hello", jsonMimeType,
           marshalIndent (encodeSearchResponse ⟨[], ⟨0, ""⟩⟩)⟩], false⟩,
       none, [("hello", 0)]⟩ :=
  masaXSearch_success _ _ "hello" _ rfl (by decide) rfl

/-- C7: for every resource read whose `search_id` parameter is missing, not
a string (`getStringArg = none` covers both) or empty, the handler fails
with the error naming the parameter ("search_id") and echoing the
requested URI, and issues no call to the client's `Search`. -/
theorem readSearchResult_missing_id (search : SearchFun) (uri : String)
    (args : List (String × JValue))
    (h : getStringArg args searchIDParam = none ∨
         getStringArg args searchIDParam = some "") :
    handleReadSearchResult search ⟨uri, args⟩ =
      ⟨.error ("missing 'search_id' argument in resource request for URI " ++
        uri), []⟩ := by
  have h2 : getStringArg args "search_id" = none ∨
      getStringArg args "search_id" = some "" := h
  rcases h2 with h2 | h2 <;> simp [handleReadSearchResult, searchIDParam, h2]

/-- Witness for C7: a read of `masax://search/results/x` with no
arguments. -/
theorem readSearchResult_missing_id_witness :
    handleReadSearchResult (fun _ _ => .ok ⟨[], ⟨0, ""⟩⟩)
        ⟨"masax://search/results/x", []⟩ =
      ⟨.error ("missing 'search_id' argument in resource request for URI " ++
        "masax://search/results/x"), []⟩ :=
  readSearchResult_missing_id _ _ _ (Or.inl rfl)

/-- C6, evaluated at the failing input (resource read with
`search_id = "%d"`, client failing with "boom"): the handler does re-issue
the search with `("%d", 0)`, but because the source passes the
already-formatted message to `fmt.Errorf` as a format string with no
operands, the resulting error is
"Failed to retrieve results for id '%!d(MISSING)': boom", which does not
embed the id `%d` (it is not an infix of the message), contradicting the
claim that the error embeds the id. -/
theorem readSearchResult_percent_id_eval :
    (handleReadSearchResult (fun _ _ => .error "boom")
        ⟨"masax://search/results/%d", [("search_id", .jstr "%d")]⟩ =
      ⟨.error "Failed to retrieve results for id '%!d(MISSING)': boom",
        [("%d", 0)]⟩) ∧
    ¬ ("%d".data <:+:
        "Failed to retrieve results for id '%!d(MISSING)': boom".data) :=
  ⟨rfl, by decide⟩

/-- C8: for every client configuration, query and `max_results`, the JSON
request body `Client.Search` serialises always carries the "query" field,
and carries the "max_results" field exactly when `max_results` is
non-zero (`omitempty` on the zero value 0). -/
theorem searchRequestBody_fields (c : Client) (q : String) (m : Int) :
    ((clientSearchRequest c q m).body.hasField "query" = true) ∧
    (((clientSearchRequest c q m).body.hasField "max_results" = true) ↔
      m ≠ 0) := by
  by_cases h : m = 0 <;>
    simp [clientSearchRequest, encodeSearchRequest, JValue.hasField, jlookup, h]

/-- Witness for C8 at a concrete configuration, query "hello" and
`max_results` 5. -/
theorem searchRequestBody_fields_witness :
    ((clientSearchRequest ⟨defaultBaseURL, "k", 15⟩ "hello" 5).body.hasField
        "query" = true) ∧
    (((clientSearchRequest ⟨defaultBaseURL, "k", 15⟩ "hello" 5).body.hasField
        "max_results" = true) ↔ (5 : Int) ≠ 0) :=
  searchRequestBody_fields _ _ _

/-- C9: construction fails exactly on configuration errors — `NewClient`
succeeds iff the API key is non-empty (whatever the options), `NewServer`
rejects a nil client and accepts any real one — and the entry point is
process-fatal (`log.Fatalf`) on an unset/empty `MASA_API_KEY` and on any
construction failure (stated over the parametrised entry point, whose
instantiation with the real constructors is `mainEntry`). -/
theorem startup_configuration_errors :
    (∀ (k : String) (opts : List ClientOption),
        (NewClient k opts).isOk = true ↔ k ≠ "") ∧
    (NewServer none = .error "masax client cannot be nil") ∧
    (∀ c : Client, NewServer (some c) = .ok ⟨c⟩) ∧
    (∀ env : String → Option String, (env "MASA_API_KEY").getD "" = "" →
        mainEntry env =
          .fatal "Error: MASA_API_KEY environment variable not set.") ∧
    (∀ (newC : String → Except String Client)
       (newS : Option Client → Except String MCPServer)
       (env : String → Option String) (e : String),
        (env "MASA_API_KEY").getD "" ≠ "" →
        newC ((env "MASA_API_KEY").getD "") = .error e →
        mainEntryWith newC newS env =
          .fatal ("Failed to create Masa X client: " ++ e)) ∧
    (∀ (newC : String → Except String Client)
       (newS : Option Client → Except String MCPServer)
       (env : String → Option String) (c : Client) (e : String),
        (env "MASA_API_KEY").getD "" ≠ "" →
        newC ((env "MASA_API_KEY").getD "") = .ok c →
        newS (some c) = .error e →
        mainEntryWith newC newS env =
          .fatal ("Failed to create MCP server: " ++ e)) := by
  refine ⟨?_, rfl, fun c => rfl, ?_, ?_, ?_⟩
  · intro k opts
    by_cases h : k = "" <;> simp [NewClient, h, Except.isOk, Except.toBool]
  · intro env he
    simp [mainEntry, mainEntryWith, he]
  · intro newC newS env e hne herr
    simp [mainEntryWith, hne, herr]
  · intro newC newS env c e hne hok herr
    simp [mainEntryWith, hne, hok, herr]

/-- Witness for C9: an environment without `MASA_API_KEY` is fatal with the
exact message, and a failing client constructor is fatal with its cause. -/
theorem startup_configuration_errors_witness :
    mainEntry (fun _ => none) =
      .fatal "Error: MASA_API_KEY environment variable not set." ∧
    mainEntryWith (fun _ => .error "nope") NewServer (fun _ => some "k") =
      .fatal ("Failed to create Masa X client: " ++ "nope") :=
  ⟨startup_configuration_errors.2.2.2.1 _ rfl,
   startup_configuration_errors.2.2.2.2.1 _ _ _ "nope" (by decide) rfl⟩

/-- C10: for every tool invocation, whatever the outcome, the
`masa_x_search` handler's Go `error` return value is `nil` (all failures
are error-flagged tool results, never transport-level handler errors);
and a `max_results` argument that is present but not a JSON number is
silently ignored, leaving the extracted value 0. -/
theorem masaXSearch_nil_handler_error :
    (∀ (search : SearchFun) (request : CallToolRequest),
        (handleMasaXSearch search request).goError = none) ∧
    (∀ (args : List (String × JValue)) (v : JValue),
        jlookup args "max_results" = some v → (∀ n : Int, v ≠ .jnum n) →
        extractMaxResults args = 0) := by
  constructor
  · intro search request
    rcases hq : getStringArg request.arguments "query" with _ | q
    · simp [handleMasaXSearch, hq]
    · rcases hs : search q (extractMaxResults request.arguments) with e | r <;>
        by_cases hqe : q = "" <;> simp [handleMasaXSearch, hq, hs, hqe]
  · intro args v hv hnum
    unfold extractMaxResults
    rw [hv]
    cases v with
    | jnum n => exact absurd rfl (hnum n)
    | jnull => rfl
    | jbool b => rfl
    | jstr s => rfl
    | jarr xs => rfl
    | jobj fs => rfl

/-- Witness for C10: a call whose `max_results` is the string "five"
(not a number) has a `nil` handler error and an extracted `max_results`
of 0. -/
theorem masaXSearch_nil_handler_error_witness :
    (handleMasaXSearch (fun _ _ => .error "boom")
        ⟨[("query", .jstr "hi"), ("max_results", .jstr "five")]⟩).goError =
      none ∧
    extractMaxResults [("query", .jstr "hi"), ("max_results", .jstr "five")] =
      0 :=
  ⟨masaXSearch_nil_handler_error.1 _ _,
   masaXSearch_nil_handler_error.2 _ (.jstr "five") rfl (fun n h => by cases h)⟩
